import Mathlib

/-!
Verification development for the batch request compilation pipeline
(`openai_subtopics_batch_input.py` and `openai_tags_batch_input.py`).

A dataset record (one verse) is a JSON object; the scripts only ever read
the keys `id`, `arabic`, `translation1`, `translation2`, `translation3`,
`topic` and `subtopic`, so a record is embedded as a structure of optional
fields (`none` = key absent).  Python truthiness of a string value
(`if target_verse[k]`) is `some s` with `s` nonempty; truthiness of a dict
(`if not verse`) is emptiness, i.e. every modelled key absent; truthiness
of a list is nonemptiness.
-/

structure Record where
  id : Option String
  arabic : Option String
  translation1 : Option String
  translation2 : Option String
  translation3 : Option String
  topic : Option (List String)
  subtopic : Option (List String)
  deriving Repr, DecidableEq

/-- The record with every key absent (the empty JSON object). -/
def emptyRecord : Record :=
  ⟨none, none, none, none, none, none, none⟩

/-- Python truthiness of an optional string value: present and nonempty. -/
def truthyStr : Option String → Bool
  | none => false
  | some s => s ≠ ""

/-- Python truthiness of an optional list value: present and nonempty. -/
def truthyList : Option (List String) → Bool
  | none => false
  | some l => !l.isEmpty

/-- Python truthiness of the record dict itself: at least one key present. -/
def Record.truthy (r : Record) : Bool :=
  r.id.isSome || r.arabic.isSome || r.translation1.isSome ||
    r.translation2.isSome || r.translation3.isSome ||
    r.topic.isSome || r.subtopic.isSome

/-- `get_verse_context(data, current_index)` from `openai_tags_batch_input.py`
(lines 10-24): previous verse when `current_index > 0`, the current verse,
and next verse when `current_index < len(data) - 1`. -/
def get_verse_context (data : List Record) (current_index : Nat) :
    Option Record × Option Record × Option Record :=
  (if current_index > 0 then data[current_index - 1]? else none,
   data[current_index]?,
   if current_index < data.length - 1 then data[current_index + 1]? else none)
/-- Literal segment 0 of the refinement prompt template (source lines 29-106). -/
def subTpl0 : String :=
  "You are an expert Islamic scholar specializing in Quranic interpretation and semantic analysis. Your task is to refine and clean subtopics for a given Quranic verse, ensuring maximum relevance, accuracy, and precision.\n\n## Core Objectives:\n### 1. Relevance Analysis\n- **Direct Connection**: Keep only subtopics that directly relate to the verse\x27s explicit content\n- **Contextual Relevance**: Include subtopics that connect to the verse\x27s broader thematic context\n- **Semantic Precision**: Ensure subtopics capture the specific meaning, not just general concepts\n\n### 2. Quality Control\n- **Theological Accuracy**: Verify all subtopics align with authentic Islamic teachings\n- **Linguistic Precision**: Correct spelling, grammar, and formatting\n- **Conceptual Clarity**: Ensure subtopics are clear and unambiguous\n\n### 3. Deduplication Process\n- **Exact Duplicates**: Remove identical entries\n- **Semantic Duplicates**: Merge similar concepts (e.g., \"Adoption\" and \"Adopted sons\" → \"Adoption\")\n- **Hierarchical Duplicates**: Remove overly specific terms when broader terms exist\n- **Linguistic Variations**: Consolidate Arabic/English variations of same concept\n\n## Filtering Criteria:\n### KEEP subtopics that are:\n- **Explicitly mentioned** in the verse text\n- **Core theological concepts** directly addressed\n- **Key legal/jurisprudential terms** specifically relevant\n- **Precise Arabic terminology** when more accurate than English\n- **Actionable concepts** that users would search for\n\n### REMOVE subtopics that are:\n- **Too generic** (e.g., \"Islam\", \"Quran\", \"God\" unless specifically relevant)\n- **Tangentially related** (mentioned in broader chapter context but not this verse)\n- **Redundant** (covered by other, better subtopics)\n- **Misspelled or poorly formatted**\n- **Overly specific** without clear connection to verse meaning\n- **Grammatical fragments** (e.g., \"speaks the truth\" when \"Truth\" suffices)\n\n## Refinement Process:\n1. **Extract Core Themes**: Identify 3-5 main concepts from the verse\n2. **Map Subtopics**: Match existing subtopics to these core themes\n3. **Consolidate Synonyms**: Merge related terms into single, best representation\n4. **Verify Theological Accuracy**: Cross-check against Islamic scholarship\n5. **Optimize for Searchability**: Ensure terms users would actually search for\n6. **Prioritize Precision**: Prefer specific, accurate terms over generic ones\n\n## Input Format:\nTarget Verse:\n\nArabic: [Arabic text]\nTranslation 1: [English translation]\nTranslation 2: [English translation]\nTranslation 3: [English translation] \nExisting Subtopics: [List of current subtopics]\n\n## Output Requirements:\nReturn **only** valid JSON in this exact format:\n\x7b\n  \"cleaned_subtopics\": [\n    \"subtopic1\",\n    \"subtopic2\",\n    \"subtopic3\"\n  ]\n\x7d\nQuality Metrics:\nRelevance Score: Each subtopic should have direct textual or thematic connection\nUniqueness: No semantic overlap between final subtopics\nPrecision: Specific enough to be meaningful, general enough to be searchable\nAccuracy: Theologically sound and linguistically correct\nExample Refinement:\nBefore: [\"inheritance\", \"succession\", \"Mirath\", \"adapted sons\", \"Sons\", \"Child\"]\nAfter: [\"Inheritance\", \"succession\", \"adapted sons\"]\n\nRemember: The goal is to create a precise, non-redundant set of subtopics that capture the verse\x27s essential meaning and themes while being optimized for user search behavior.\n\nTarget Verse:\n\nArabic: "

/-- Literal segment 1 of the refinement prompt template (source lines 29-106). -/
def subTpl1 : String :=
  "\nTranslations: "

/-- Literal segment 2 of the refinement prompt template (source lines 29-106). -/
def subTpl2 : String :=
  "\nExisting Subtopics: "

/-- Literal segment 3 of the refinement prompt template (source lines 29-106). -/
def subTpl3 : String :=
  "\n"

/-- Literal segment 0 of the tagging prompt template (source lines 59-105). -/
def tagsTpl0 : String :=
  "You are an expert Islamic scholar specializing in Quranic interpretation and semantic analysis. Your task is to generate concise and meaningful tags for a Target Quranic verse, making them relevant to general user queries about Islamic beliefs, practices, history, and ethical guidance.\n\nYou will be provided:\n- The verse immediately before and after (with Arabic and one translation for context)\n- The target verse with Arabic text, three translations, and existing scholarly topics/subtopics\n\n## Objective:\nGenerate 2 tags for the Target Verse that will help users discover the verse through natural-language religious queries, such as:\n- \"What does Islam say about zakat?\"\n- \"How were the Israelites saved in Islam?\"\n- \"Are there Quranic stories of origin of life?\"\n- \"What does the Quran say about women rights?\"\n\nThese tags will be used in a Quran search tool that indexes verses semantically.\n\n## Tag Guidelines:\n- Use phrases that match likely user queries (e.g., \"Quran on tyranny\", \"story of Israelites\")\n- Do not repeat the verse text; instead, summarize key themes in searchable language\n- Consider:\n  * Historical events (e.g., Israelites\x27 rescue)\n  * Ethical and social issues (e.g., persecution, gendered violence)\n  * Sectors of society (e.g., women, children, oppressed)\n  * Broader Islamic teachings (e.g., divine justice, trials of the believers)\n- Tags should be specific, concise, and searchable\n- Prioritize relevance to Islamic themes commonly asked about\n\n## Context Information:\n\nPrevious Verse:\n"

/-- Literal segment 1 of the tagging prompt template (source lines 59-105). -/
def tagsTpl1 : String :=
  "\n\nNext Verse:\n"

/-- Literal segment 2 of the tagging prompt template (source lines 59-105). -/
def tagsTpl2 : String :=
  "\n\nTarget Verse:\nArabic: "

/-- Literal segment 3 of the tagging prompt template (source lines 59-105). -/
def tagsTpl3 : String :=
  "\nTranslation1: "

/-- Literal segment 4 of the tagging prompt template (source lines 59-105). -/
def tagsTpl4 : String :=
  "\nTranslation2: "

/-- Literal segment 5 of the tagging prompt template (source lines 59-105). -/
def tagsTpl5 : String :=
  "\nTranslation3: "

/-- Literal segment 6 of the tagging prompt template (source lines 59-105). -/
def tagsTpl6 : String :=
  "\nTopics: "

/-- Literal segment 7 of the tagging prompt template (source lines 59-105). -/
def tagsTpl7 : String :=
  "\nSubtopics: "

/-- Literal segment 8 of the tagging prompt template (source lines 59-105). -/
def tagsTpl8 : String :=
  "\n\n## Output Format:\nReturn only valid JSON in this exact format:\n\x7b\n  \"tags\": [\"tag1\", \"tag2\"]\n\x7d"


/-- The `translations` list built by the loop at lines 14-18 of
`openai_subtopics_batch_input.py`: values of `translation1..translation3`
that are present and truthy (Python `if trans_key in target_verse and
target_verse[trans_key]`). -/
def sub_translations (target_verse : Record) : List String :=
  [target_verse.translation1, target_verse.translation2, target_verse.translation3].filterMap
    (fun o => if truthyStr o then o else none)

/-- The `translations_text` local (line 20): the present translations joined by
newlines, each line numbered by `enumerate(translations, start=1)`. -/
def translations_text (target_verse : Record) : String :=
  String.intercalate ("\n")
    (((sub_translations target_verse).enumFrom 1).map
      (fun p => "Translation " ++ toString p.1 ++ ": \"" ++ p.2 ++ "\""))

/-- The `arabic_text` local (line 23): `target_verse.get('arabic', 'No Arabic text provided')`. -/
def arabic_text (target_verse : Record) : String :=
  target_verse.arabic.getD ("No Arabic text provided")

/-- The `subtopics_str` local, computed identically in both scripts
(subtopics lines 26-27, tags lines 56-57): comma-join of the `subtopic` list,
or the placeholder when the list is absent or empty. -/
def subtopics_str (target_verse : Record) : String :=
  let subtopics := target_verse.subtopic.getD []
  if subtopics.isEmpty then "No subtopics provided" else String.intercalate (", ") subtopics

/-- `create_prompt(target_verse)` from `openai_subtopics_batch_input.py`
(lines 10-108): the refinement prompt template with `arabic_text`,
`translations_text` and `subtopics_str` substituted. -/
def create_prompt (target_verse : Record) : String :=
  subTpl0 ++ arabic_text target_verse ++ subTpl1 ++ translations_text target_verse ++
    subTpl2 ++ subtopics_str target_verse ++ subTpl3

/-- Python truthiness of a verse variable that is either `None` or a dict. -/
def optRecordTruthy : Option Record → Bool
  | none => false
  | some v => v.truthy

/-- `format_context_verse(verse, verse_type)` from `openai_tags_batch_input.py`
(lines 26-37).  `if not verse:` is dict truthiness, so both `None` and a record
with no keys take the placeholder branch. -/
def format_context_verse (verse : Option Record) (verse_type : String) : String :=
  if !optRecordTruthy verse then "No " ++ verse_type ++ " available"
  else
    "Arabic: " ++ (verse.getD emptyRecord).arabic.getD ("No Arabic text available") ++
      "\nTranslation: " ++ (verse.getD emptyRecord).translation1.getD ("No translation available")

/-- The `prev_text` local (tags line 43): `format_context_verse(prev_verse,
"previous verse") if prev_verse else "No previous verse available"`. -/
def prev_text_of (prev_verse : Option Record) : String :=
  if optRecordTruthy prev_verse then format_context_verse prev_verse ("previous verse")
  else "No previous verse available"

/-- The `next_text` local (tags line 44). -/
def next_text_of (next_verse : Option Record) : String :=
  if optRecordTruthy next_verse then format_context_verse next_verse ("next verse")
  else "No next verse available"

/-- The `topics_str` local (tags lines 53-54). -/
def topics_str (target_verse : Record) : String :=
  let topics := target_verse.topic.getD []
  if topics.isEmpty then "No topics provided" else String.intercalate (", ") topics

/-- `create_tags_prompt(prev_verse, target_verse, next_verse)` from
`openai_tags_batch_input.py` (lines 39-107). -/
def create_tags_prompt (prev_verse : Option Record) (target_verse : Record)
    (next_verse : Option Record) : String :=
  tagsTpl0 ++ prev_text_of prev_verse ++ tagsTpl1 ++ next_text_of next_verse ++
    tagsTpl2 ++ target_verse.arabic.getD ("No Arabic text available") ++
    tagsTpl3 ++ target_verse.translation1.getD ("No translation1 available") ++
    tagsTpl4 ++ target_verse.translation2.getD ("No translation2 available") ++
    tagsTpl5 ++ target_verse.translation3.getD ("No translation3 available") ++
    tagsTpl6 ++ topics_str target_verse ++ tagsTpl7 ++ subtopics_str target_verse ++ tagsTpl8

/-- Python's `str.startswith`, evaluated on character lists. -/
def startsWithStr (s pre : String) : Bool :=
  pre.data.isPrefixOf s.data

/-- The `filtered_data` list of `(original_index, verse)` pairs built at lines
116-125 of `openai_subtopics_batch_input.py`.  `if surah_filter:` is Python
value truthiness, so an empty-string filter takes the process-all branch. -/
def sub_filtered_data (data : List Record) (surah_filter : Option String) :
    List (Nat × Record) :=
  if truthyStr surah_filter then
    data.enum.filter (fun p => startsWithStr (p.2.id.getD "") (surah_filter.getD "" ++ "|"))
  else data.enum

/-- The pairs that survive the `continue` at lines 131-133 of
`openai_subtopics_batch_input.py` (`if 'subtopic' not in target_verse or not
target_verse['subtopic']: continue`): the records the refinement run
actually turns into batch requests. -/
def sub_selected (data : List Record) (surah_filter : Option String) :
    List (Nat × Record) :=
  (sub_filtered_data data surah_filter).filter (fun p => truthyList p.2.subtopic)

/-- The `filtered_indices` list built at lines 116-124 of
`openai_tags_batch_input.py`: indices of prefix-matching verses, or all
indices when the filter is falsy. -/
def tags_filtered_indices (data : List Record) (surah_filter : Option String) :
    List Nat :=
  if truthyStr surah_filter then
    (data.enum.filter
      (fun p => startsWithStr (p.2.id.getD "") (surah_filter.getD "" ++ "|"))).map Prod.fst
  else List.range data.length

/-- One request dict as built at lines 139-158 of either script.  The float
literal `0.1` is kept as its decimal rendering, since it is only ever used as
an opaque constant copied into the serialized body. -/
structure BatchRequest where
  custom_id : String
  method : String
  url : String
  model : String
  system_content : String
  user_content : String
  max_tokens : Nat
  temperature : String
  deriving Repr, DecidableEq

/-- The request dict of `openai_subtopics_batch_input.py` lines 139-158. -/
def mkSubRequest (custom_id : String) (prompt : String) : BatchRequest :=
  ⟨custom_id, "POST", "/v1/chat/completions", "gpt-4.1-2025-04-14",
   "You are an expert Islamic scholar. Always respond with valid JSON only.",
   prompt, 300, "0.1"⟩

/-- The request dict of `openai_tags_batch_input.py` lines 139-158. -/
def mkTagsRequest (custom_id : String) (prompt : String) : BatchRequest :=
  ⟨custom_id, "POST", "/v1/chat/completions", "gpt-4.1-2025-04-14",
   "You are an expert Islamic scholar specializing in Quranic interpretation. Always respond with valid JSON only.",
   prompt, 150, "0.1"⟩

/-- A Python exception aborting the request-building loop: `target_verse['id']`
raises `KeyError` when the key is absent; `data[current_index]` raises
`IndexError` when out of range. -/
inductive BuildError
  | keyErrorId
  | indexError
  deriving Repr, DecidableEq

/-- The request-building loop of `openai_subtopics_batch_input.py`
(lines 130-160) over `(original_index, verse)` pairs: a record with an absent
or empty `subtopic` is skipped (`continue`); a record with an absent `id`
raises, aborting the loop with nothing emitted. -/
def sub_build : List (Nat × Record) → Except BuildError (List BatchRequest)
  | [] => Except.ok []
  | p :: rest =>
    if truthyList p.2.subtopic then
      match p.2.id with
      | none => Except.error BuildError.keyErrorId
      | some cid => (sub_build rest).map (fun l => mkSubRequest cid (create_prompt p.2) :: l)
    else sub_build rest

/-- The `batch_requests` list of a refinement run. -/
def sub_batch_requests (data : List Record) (surah_filter : Option String) :
    Except BuildError (List BatchRequest) :=
  sub_build (sub_filtered_data data surah_filter)

/-- One iteration of the request loop of `openai_tags_batch_input.py`
(lines 129-160) at index `current_index`: the context window is resolved by
`get_verse_context` against the full canonical `data`, never against the
filtered subset. -/
def tags_request_of (data : List Record) (current_index : Nat) :
    Except BuildError BatchRequest :=
  match data[current_index]? with
  | none => Except.error BuildError.indexError
  | some target_verse =>
    match target_verse.id with
    | none => Except.error BuildError.keyErrorId
    | some cid =>
      Except.ok (mkTagsRequest cid
        (create_tags_prompt (get_verse_context data current_index).1 target_verse
          (get_verse_context data current_index).2.2))

/-- The request-building loop of the tags run over the filtered indices. -/
def tags_build (data : List Record) : List Nat → Except BuildError (List BatchRequest)
  | [] => Except.ok []
  | i :: rest =>
    match tags_request_of data i with
    | Except.error e => Except.error e
    | Except.ok r => (tags_build data rest).map (fun l => r :: l)

/-- The `batch_requests` list of a tags run. -/
def tags_batch_requests (data : List Record) (surah_filter : Option String) :
    Except BuildError (List BatchRequest) :=
  tags_build data (tags_filtered_indices data surah_filter)

/-- Hexadecimal digit, for the JSON escaping of ASCII control characters. -/
def hexDigit (n : Nat) : String :=
  (["0", "1", "2", "3", "4", "5", "6", "7",
    "8", "9", "a", "b", "c", "d", "e", "f"][n]?).getD ("0")

/-- One character of a JSON string literal as `json.dumps` with
`ensure_ascii=False` renders it: quote, backslash and ASCII control characters
are escaped; every other character (all of Arabic script included) passes
through unchanged. -/
def jsonEscapeChar (c : Char) : String :=
  if c = '"' then "\\\""
  else if c = '\\' then "\\\\"
  else if c = '\n' then "\\n"
  else if c = '\t' then "\\t"
  else if c = '\r' then "\\r"
  else if c = Char.ofNat 8 then "\\b"
  else if c = Char.ofNat 12 then "\\f"
  else if c.toNat < 32 then "\\u00" ++ hexDigit (c.toNat / 16) ++ hexDigit (c.toNat % 16)
  else String.singleton c

/-- The body of a JSON string literal: each character escaped in turn. -/
def jsonEscList : List Char → String
  | [] => ""
  | c :: cs => jsonEscapeChar c ++ jsonEscList cs

/-- A JSON string literal: quoted, with every character escaped. -/
def jsonStr (s : String) : String :=
  "\"" ++ jsonEscList s.data ++ "\""

/-- `json.dumps(request, ensure_ascii=False)` for the fixed request shape of
lines 139-158 (default separators, keys in insertion order): a single line of
structured text. -/
def json_encode (r : BatchRequest) : String :=
  "\x7b\"custom_id\": " ++ jsonStr r.custom_id ++ ", \"method\": " ++ jsonStr r.method ++
    ", \"url\": " ++ jsonStr r.url ++ ", \"body\": \x7b\"model\": " ++ jsonStr r.model ++
    ", \"messages\": [\x7b\"role\": \"system\", \"content\": " ++ jsonStr r.system_content ++
    "\x7d, \x7b\"role\": \"user\", \"content\": " ++ jsonStr r.user_content ++
    "\x7d], \"max_tokens\": " ++ toString r.max_tokens ++ ", \"temperature\": " ++
    r.temperature ++ "\x7d\x7d"

/-- The write loop at lines 162-165 of either script: one
`json.dumps(request, ensure_ascii=False) + '\n'` write per request, in list
order; the value is the full content of the destination after the loop. -/
def write_jsonl : List BatchRequest → String
  | [] => ""
  | r :: rest => json_encode r ++ "\n" ++ write_jsonl rest

/-- Outcome of `open(file_path, 'r')` plus `json.load(f)` (lines 4-8, identical
in both scripts), abstracting the file system: the source is missing,
unreadable, malformed, or holds an ordered record array. -/
inductive Source
  | missing
  | unreadable
  | malformed
  | ok (data : List Record)

/-- The exception classes `load_dataset` can raise. -/
inductive LoadError
  | fileNotFound
  | ioError
  | jsonDecodeError
  deriving Repr, DecidableEq

/-- `load_dataset(file_path)` (lines 4-8): the parsed record sequence, or a
raised exception; no partial result exists. -/
def load_dataset : Source → Except LoadError (List Record)
  | Source.missing => Except.error LoadError.fileNotFound
  | Source.unreadable => Except.error LoadError.ioError
  | Source.malformed => Except.error LoadError.jsonDecodeError
  | Source.ok data => Except.ok data

/-- An exception propagating out of `create_batch_file`. -/
inductive RunError
  | load (e : LoadError)
  | build (e : BuildError)
  deriving Repr, DecidableEq

/-- An observable operation on the output destination. -/
inductive Event
  | openedOutput
  | wrote (s : String)
  deriving Repr, DecidableEq

/-- `create_batch_file(input_file, output_file, surah_filter)` of
`openai_subtopics_batch_input.py` (lines 110-170): load, filter, build every
request, and only then open the destination and write one line per request;
returns `len(batch_requests)`.  The second component is the ordered list of
operations performed on the destination, so a raised exception leaves the
destination untouched (it is opened only after the loop completes). -/
def sub_create_batch_file (src : Source) (surah_filter : Option String) :
    Except RunError Nat × List Event :=
  match load_dataset src with
  | Except.error e => (Except.error (RunError.load e), [])
  | Except.ok data =>
    match sub_batch_requests data surah_filter with
    | Except.error e => (Except.error (RunError.build e), [])
    | Except.ok reqs =>
      (Except.ok reqs.length,
       Event.openedOutput :: reqs.map (fun r => Event.wrote (json_encode r ++ "\n")))

/-- `create_batch_file` of `openai_tags_batch_input.py` (lines 109-170). -/
def tags_create_batch_file (src : Source) (surah_filter : Option String) :
    Except RunError Nat × List Event :=
  match load_dataset src with
  | Except.error e => (Except.error (RunError.load e), [])
  | Except.ok data =>
    match tags_batch_requests data surah_filter with
    | Except.error e => (Except.error (RunError.build e), [])
    | Except.ok reqs =>
      (Except.ok reqs.length,
       Event.openedOutput :: reqs.map (fun r => Event.wrote (json_encode r ++ "\n")))

/-- A record carrying only an `id` key (all other keys absent). -/
def recIdOnly : Record := ⟨some "1|1", none, none, none, none, none, none⟩

/-- A record whose `id` key is present but holds the empty string, with a
nonempty `subtopic` list. -/
def recEmptyId : Record := ⟨some "", none, none, none, none, none, some ["x"]⟩

/-- A record whose `id` does not start with `"|"`, with a nonempty
`subtopic` list. -/
def recGroupA : Record := ⟨some "a|1", none, none, none, none, none, some ["x"]⟩

/-! ### Helper lemmas about the request builders -/

theorem sub_build_ok (l : List (Nat × Record))
    (h : ∀ p ∈ l, truthyList p.2.subtopic = true → p.2.id.isSome) :
    sub_build l = Except.ok ((l.filter (fun p => truthyList p.2.subtopic)).map
      (fun p => mkSubRequest (p.2.id.getD "") (create_prompt p.2))) := by
  induction l with
  | nil => rfl
  | cons p rest ih =>
    have hrest : ∀ q ∈ rest, truthyList q.2.subtopic = true → q.2.id.isSome :=
      fun q hq => h q (List.mem_cons_of_mem _ hq)
    by_cases hp : truthyList p.2.subtopic = true
    · have hid := h p (List.mem_cons_self _ _) hp
      cases hcid : p.2.id with
      | none => rw [hcid] at hid; simp at hid
      | some cid =>
        simp [sub_build, hp, hcid, ih hrest, List.filter_cons, Except.map]
    · simp [sub_build, hp, ih hrest, List.filter_cons]

theorem sub_build_err (l : List (Nat × Record))
    (h : ∃ p ∈ l, truthyList p.2.subtopic = true ∧ p.2.id = none) :
    sub_build l = Except.error BuildError.keyErrorId := by
  induction l with
  | nil => simp at h
  | cons p rest ih =>
    by_cases hp : truthyList p.2.subtopic = true
    · cases hcid : p.2.id with
      | none => simp [sub_build, hp, hcid]
      | some cid =>
        have hr : ∃ q ∈ rest, truthyList q.2.subtopic = true ∧ q.2.id = none := by
          obtain ⟨q, hq, hq1, hq2⟩ := h
          cases List.mem_cons.1 hq with
          | inl he => rw [he] at hq2; rw [hq2] at hcid; cases hcid
          | inr hm => exact ⟨q, hm, hq1, hq2⟩
        simp [sub_build, hp, hcid, ih hr, Except.map]
    · have hr : ∃ q ∈ rest, truthyList q.2.subtopic = true ∧ q.2.id = none := by
        obtain ⟨q, hq, hq1, hq2⟩ := h
        cases List.mem_cons.1 hq with
        | inl he => rw [he] at hq1; exact absurd hq1 hp
        | inr hm => exact ⟨q, hm, hq1, hq2⟩
      simp [sub_build, hp, ih hr]

theorem sub_build_ids (l : List (Nat × Record)) (reqs : List BatchRequest)
    (h : sub_build l = Except.ok reqs) :
    ∀ p ∈ l, truthyList p.2.subtopic = true → p.2.id.isSome := by
  intro p hp ht
  by_contra hn
  have hnone : p.2.id = none := Option.not_isSome_iff_eq_none.1 hn
  rw [sub_build_err l ⟨p, hp, ht, hnone⟩] at h
  cases h

theorem sub_build_fixed (l : List (Nat × Record)) (reqs : List BatchRequest)
    (h : sub_build l = Except.ok reqs) :
    ∀ r ∈ reqs, ∃ cid prompt, r = mkSubRequest cid prompt := by
  have hid := sub_build_ids l reqs h
  rw [sub_build_ok l hid] at h
  have hreqs := (Except.ok.inj h).symm
  intro r hr
  rw [hreqs] at hr
  obtain ⟨p, _, hpr⟩ := List.mem_map.1 hr
  exact ⟨p.2.id.getD "", create_prompt p.2, hpr.symm⟩

theorem tags_request_of_ok (data : List Record) (j : Nat) (r : BatchRequest)
    (h : tags_request_of data j = Except.ok r) :
    ∃ t, data[j]? = some t ∧ t.id = some r.custom_id ∧
      r = mkTagsRequest r.custom_id
        (create_tags_prompt (get_verse_context data j).1 t
          (get_verse_context data j).2.2) := by
  cases hg : data[j]? with
  | none => simp [tags_request_of, hg] at h
  | some t =>
    cases hid : t.id with
    | none => simp [tags_request_of, hg, hid] at h
    | some cid =>
      have hr : r = mkTagsRequest cid
          (create_tags_prompt (get_verse_context data j).1 t
            (get_verse_context data j).2.2) := by
        simp [tags_request_of, hg, hid] at h
        exact h.symm
      refine ⟨t, rfl, ?_, ?_⟩
      · rw [hr]; exact hid
      · rw [hr]
        rfl

theorem tags_build_pos (data : List Record) (idx : List Nat) :
    ∀ reqs : List BatchRequest, tags_build data idx = Except.ok reqs →
    ∀ k : Nat, reqs[k]? = (idx[k]?.bind (fun j => (tags_request_of data j).toOption)) := by
  induction idx with
  | nil =>
    intro reqs h k
    have hr : reqs = [] := by
      unfold tags_build at h
      exact (Except.ok.inj h).symm
    rw [hr]
    simp
  | cons i rest ih =>
    intro reqs h k
    cases hreq : tags_request_of data i with
    | error e => simp [tags_build, hreq] at h
    | ok r =>
      cases hrest : tags_build data rest with
      | error e => simp [tags_build, hreq, hrest, Except.map] at h
      | ok l =>
        have hr : reqs = r :: l := by
          simp [tags_build, hreq, hrest, Except.map] at h
          exact h.symm
        rw [hr]
        cases k with
        | zero => simp [hreq, Except.toOption]
        | succ k => simp [ih l hrest k]

theorem tags_build_fixed (data : List Record) (idx : List Nat) :
    ∀ reqs : List BatchRequest, tags_build data idx = Except.ok reqs →
    ∀ r ∈ reqs, ∃ cid prompt, r = mkTagsRequest cid prompt := by
  induction idx with
  | nil =>
    intro reqs h r hr
    unfold tags_build at h
    rw [← Except.ok.inj h] at hr
    cases hr
  | cons i rest ih =>
    intro reqs h r hr
    cases hreq : tags_request_of data i with
    | error e => simp [tags_build, hreq] at h
    | ok r0 =>
      cases hrest : tags_build data rest with
      | error e => simp [tags_build, hreq, hrest, Except.map] at h
      | ok l =>
        have hcons : reqs = r0 :: l := by
          simp [tags_build, hreq, hrest, Except.map] at h
          exact h.symm
        rw [hcons] at hr
        cases List.mem_cons.1 hr with
        | inl he =>
          obtain ⟨t, _, _, hshape⟩ := tags_request_of_ok data i r0 hreq
          exact ⟨r0.custom_id,
            create_tags_prompt (get_verse_context data i).1 t (get_verse_context data i).2.2,
            by rw [he]; exact hshape⟩
        | inr hm => exact ih l hrest r hm

/-! ### Helper lemmas about the JSON writer -/

theorem hexDigit_no_nl (n : Nat) : '\n' ∉ (hexDigit n).data := by
  unfold hexDigit
  cases h : ["0", "1", "2", "3", "4", "5", "6", "7",
      "8", "9", "a", "b", "c", "d", "e", "f"][n]? with
  | none => decide
  | some x =>
    have hx := List.getElem?_mem h
    fin_cases hx <;> decide

theorem jsonEscapeChar_no_nl (c : Char) : '\n' ∉ (jsonEscapeChar c).data := by
  unfold jsonEscapeChar
  split_ifs with h1 h2 h3 h4 h5 h6 h7 h8
  · decide
  · decide
  · decide
  · decide
  · decide
  · decide
  · decide
  · intro hmem
    rw [String.data_append, String.data_append] at hmem
    rcases List.mem_append.1 hmem with hm | hm
    · rcases List.mem_append.1 hm with hm2 | hm2
      · exact absurd hm2 (by decide)
      · exact absurd hm2 (hexDigit_no_nl _)
    · exact absurd hm (hexDigit_no_nl _)
  · intro hmem
    have he : '\n' = c := by simpa [String.singleton] using hmem
    exact h3 he.symm

theorem jsonEscList_no_nl (l : List Char) : '\n' ∉ (jsonEscList l).data := by
  induction l with
  | nil => decide
  | cons c cs ih =>
    intro hmem
    simp only [jsonEscList, String.data_append] at hmem
    rcases List.mem_append.1 hmem with hm | hm
    · exact absurd hm (jsonEscapeChar_no_nl c)
    · exact absurd hm ih

theorem jsonStr_no_nl (s : String) : '\n' ∉ (jsonStr s).data := by
  intro hmem
  simp only [jsonStr, String.data_append] at hmem
  rcases List.mem_append.1 hmem with hm | hm
  · rcases List.mem_append.1 hm with hm2 | hm2
    · exact absurd hm2 (by decide)
    · exact absurd hm2 (jsonEscList_no_nl _)
  · exact absurd hm (by decide)

theorem no_nl_append (a b : String) (ha : '\n' ∉ a.data) (hb : '\n' ∉ b.data) :
    '\n' ∉ (a ++ b).data := by
  rw [String.data_append]
  intro hm
  rcases List.mem_append.1 hm with h | h
  · exact ha h
  · exact hb h

theorem json_encode_no_nl (r : BatchRequest) (ht : '\n' ∉ r.temperature.data)
    (hm : '\n' ∉ (toString r.max_tokens).data) : '\n' ∉ (json_encode r).data := by
  unfold json_encode
  repeat' apply no_nl_append
  all_goals first
    | exact jsonEscList_no_nl _
    | exact ht
    | exact hm
    | decide

theorem write_jsonl_count (reqs : List BatchRequest)
    (h : ∀ r ∈ reqs, '\n' ∉ (json_encode r).data) :
    (write_jsonl reqs).data.count '\n' = reqs.length := by
  induction reqs with
  | nil => decide
  | cons r rest ih =>
    have h0 : (json_encode r).data.count '\n' = 0 :=
      List.count_eq_zero.2 (h r (List.mem_cons_self _ _))
    have hrest := ih (fun q hq => h q (List.mem_cons_of_mem _ hq))
    simp [write_jsonl, String.data_append, List.count_append, h0, hrest]

theorem jsonEscapeChar_id (c : Char) (h32 : 32 ≤ c.toNat) (hq : c ≠ '"')
    (hb : c ≠ '\\') : jsonEscapeChar c = String.singleton c := by
  unfold jsonEscapeChar
  split_ifs with h1 h2 h3 h4 h5 h6 h7 <;>
    first
      | rfl
      | omega
      | (subst_vars; exact absurd rfl hq)
      | (subst_vars; exact absurd rfl hb)
      | (subst_vars; exact absurd h32 (by decide))

theorem jsonEscList_id (l : List Char)
    (h : ∀ c ∈ l, 32 ≤ c.toNat ∧ c ≠ '"' ∧ c ≠ '\\') :
    jsonEscList l = String.mk l := by
  induction l with
  | nil => rfl
  | cons c cs ih =>
    have hc := h c (List.mem_cons_self _ _)
    rw [jsonEscList, jsonEscapeChar_id c hc.1 hc.2.1 hc.2.2,
      ih (fun d hd => h d (List.mem_cons_of_mem _ hd))]
    rfl

theorem jsonStr_id (s : String)
    (h : ∀ c ∈ s.data, 32 ≤ c.toNat ∧ c ≠ '"' ∧ c ≠ '\\') :
    jsonStr s = "\"" ++ s ++ "\"" := by
  unfold jsonStr
  rw [jsonEscList_id s.data h]

/-! ### Claim theorems -/

/-- Claim C1: for every canonical record sequence `data` and every index `i`
into it, `get_verse_context` resolves `prev = data[i-1]` when `i > 0` and
absent otherwise, and `next = data[i+1]` when `i` is not the last index and
absent otherwise; and in the tags pipeline the request built at a selected
index `j` is `tags_request_of data j`, a function of the canonical sequence
and `j` alone, so the selection configuration never changes the resolved
neighbors of a fixed target index. -/
theorem C1_context_window (data : List Record) :
    (∀ i : Nat, i < data.length →
      ((0 < i → ∀ h1 : i - 1 < data.length,
          (get_verse_context data i).1 = some (data.get ⟨i - 1, h1⟩)) ∧
       (i = 0 → (get_verse_context data i).1 = none) ∧
       (∀ h : i < data.length, (get_verse_context data i).2.1 = some (data.get ⟨i, h⟩)) ∧
       (i + 1 < data.length → ∀ h2 : i + 1 < data.length,
          (get_verse_context data i).2.2 = some (data.get ⟨i + 1, h2⟩)) ∧
       (i + 1 = data.length → (get_verse_context data i).2.2 = none))) ∧
    (∀ (gf : Option String) (reqs : List BatchRequest) (k j : Nat),
      tags_batch_requests data gf = Except.ok reqs →
      (tags_filtered_indices data gf)[k]? = some j →
      reqs[k]? = (tags_request_of data j).toOption) := by
  constructor
  · intro i hi
    refine ⟨?_, ?_, ?_, ?_, ?_⟩
    · intro hpos h1
      simp [get_verse_context, hpos, List.getElem?_eq_getElem h1]
    · intro h0
      simp [get_verse_context, h0]
    · intro h
      simp [get_verse_context, List.getElem?_eq_getElem h]
    · intro hlt h2
      have hc : i < data.length - 1 := by omega
      simp [get_verse_context, hc, List.getElem?_eq_getElem h2]
    · intro heq
      have hc : ¬(i < data.length - 1) := by omega
      simp [get_verse_context, hc]
  · intro gf reqs k j hok hk
    have hpos := tags_build_pos data (tags_filtered_indices data gf) reqs hok k
    rw [hk] at hpos
    simpa using hpos

/-- Witness for C1 at the concrete three-record store. -/
theorem C1_context_window_witness :
    (get_verse_context [emptyRecord, recIdOnly, recGroupA] 1).1 = some emptyRecord ∧
    (get_verse_context [emptyRecord, recIdOnly, recGroupA] 1).2.2 = some recGroupA := by
  have h := C1_context_window [emptyRecord, recIdOnly, recGroupA]
  constructor
  · have hh := (h.1 1 (by decide)).1 (by decide) (by decide)
    simpa using hh
  · have hh := (h.1 1 (by decide)).2.2.2.1 (by decide) (by decide)
    simpa using hh

/-- Claim C2 counterexample: with the group filter configured as the empty
string (present, not absent), selection keeps a record whose id does not
start with `group_filter ++ "|"`, because `if surah_filter:` treats the
empty string as falsy and takes the process-all branch. -/
theorem C2_selector_counterexample :
    sub_selected [recGroupA] (some "") = [(0, recGroupA)] ∧
    (startsWithStr (recGroupA.id.getD "") ("" ++ "|")) = false := by
  constructor
  · decide
  · decide

/-- Claim C2 (amended): selection keeps exactly the records whose id starts
with `group_filter ++ "|"` — all records when the group filter is absent or
empty — and whose `subtopic` list is present and nonempty, as an ordered
subsequence of the enumerated store with no deduplication; an empty
selection yields a successful run that writes zero lines, not an error.  The
tags-script selection is likewise an ordered subsequence of the index
range. -/
theorem C2_selector_amended (data : List Record) (gf : Option String) :
    sub_selected data gf = data.enum.filter (fun p =>
      (!truthyStr gf || startsWithStr (p.2.id.getD "") (gf.getD "" ++ "|")) &&
        truthyList p.2.subtopic) ∧
    (sub_selected data gf).Sublist data.enum ∧
    (∀ p : Nat × Record, p ∈ sub_selected data gf ↔
      (data[p.1]? = some p.2 ∧
        (truthyStr gf = true → startsWithStr (p.2.id.getD "") (gf.getD "" ++ "|") = true) ∧
        truthyList p.2.subtopic = true)) ∧
    (sub_selected data gf = [] →
      sub_create_batch_file (Source.ok data) gf = (Except.ok 0, [Event.openedOutput])) ∧
    (tags_filtered_indices data gf).Sublist (List.range data.length) := by
  have heq : sub_selected data gf = data.enum.filter (fun p =>
      (!truthyStr gf || startsWithStr (p.2.id.getD "") (gf.getD "" ++ "|")) &&
        truthyList p.2.subtopic) := by
    unfold sub_selected sub_filtered_data
    cases hg : truthyStr gf with
    | true =>
      rw [if_pos rfl, List.filter_filter]
      simp [Bool.and_comm]
    | false =>
      rw [if_neg (by simp)]
      simp
  refine ⟨heq, ?_, ?_, ?_, ?_⟩
  · rw [heq]; exact List.filter_sublist _
  · intro p
    rw [heq]
    rw [List.mem_filter, List.mem_enum_iff_getElem?]
    cases hg : truthyStr gf with
    | true => simp
    | false => simp
  · intro hsel
    have hids : ∀ p ∈ sub_filtered_data data gf,
        truthyList p.2.subtopic = true → p.2.id.isSome := by
      intro p hp ht
      have : p ∈ sub_selected data gf := List.mem_filter.2 ⟨hp, ht⟩
      rw [hsel] at this
      cases this
    have hok : sub_batch_requests data gf = Except.ok [] := by
      unfold sub_batch_requests
      rw [sub_build_ok _ hids]
      have : (sub_filtered_data data gf).filter (fun p => truthyList p.2.subtopic) = [] := hsel
      rw [this]
      rfl
    simp [sub_create_batch_file, load_dataset, hok]
  · unfold tags_filtered_indices
    cases hg : truthyStr gf with
    | true =>
      rw [if_pos rfl]
      have hs := (List.filter_sublist (l := data.enum)
        (p := fun p => startsWithStr (p.2.id.getD "") (gf.getD "" ++ "|"))).map Prod.fst
      rw [List.enum_map_fst] at hs
      exact hs
    | false =>
      rw [if_neg (by simp)]

/-- Witness for C2 (amended): an empty selection yields a successful run
that writes zero lines. -/
theorem C2_selector_amended_witness :
    sub_create_batch_file (Source.ok [recIdOnly]) none =
      (Except.ok 0, [Event.openedOutput]) := by
  have h := (C2_selector_amended [recIdOnly] none).2.2.2.1
  exact h (by decide)

/-- Claim C3: the refinement renderer collects exactly the present (truthy)
`translation1..translation3` values and numbers the rendered lines
sequentially from 1 in order of presence, closing gaps in the source
numbering: a record with only `translation1` and `translation3` present
renders exactly the two lines labeled 1 and 2. -/
theorem C3_renumbering (v : Record) (a b : String)
    (h1 : v.translation1 = some a) (ha : a ≠ "")
    (h2 : truthyStr v.translation2 = false)
    (h3 : v.translation3 = some b) (hb : b ≠ "") :
    sub_translations v = [a, b] ∧
    translations_text v = String.intercalate ("\n")
      ["Translation 1: \"" ++ a ++ "\"", "Translation 2: \"" ++ b ++ "\""] ∧
    (∀ w : Record, ((sub_translations w).enumFrom 1).map Prod.fst =
      List.range' 1 (sub_translations w).length) := by
  have ht1 : truthyStr (some a) = true := by simp [truthyStr, ha]
  have ht3 : truthyStr (some b) = true := by simp [truthyStr, hb]
  have hst : sub_translations v = [a, b] := by
    simp [sub_translations, h1, h3, ht1, ht3, h2]
  refine ⟨hst, ?_, ?_⟩
  · have hnum1 : (toString 1 : String) = "1" := rfl
    have hnum2 : (toString 2 : String) = "2" := rfl
    unfold translations_text
    rw [hst]
    simp [List.enumFrom, hnum1, hnum2]
  · intro w
    rw [List.enumFrom_map_fst]

/-- Witness for C3 at a concrete record with a gap at `translation2`. -/
theorem C3_renumbering_witness :
    sub_translations ⟨none, none, some "a", none, some "b", none, none⟩ = ["a", "b"] ∧
    translations_text ⟨none, none, some "a", none, some "b", none, none⟩ =
      String.intercalate ("\n") ["Translation 1: \"a\"", "Translation 2: \"b\""] := by
  have h := C3_renumbering ⟨none, none, some "a", none, some "b", none, none⟩ "a" "b"
    rfl (by decide) (by decide) rfl (by decide)
  refine ⟨h.1, ?_⟩
  have h2 := h.2.1
  simpa using h2

/-- Claim C4 counterexample: a selected record whose `id` is present but
empty is not rejected by assembly — the run emits an envelope whose
`custom_id` is the empty string. -/
theorem C4_assembler_counterexample :
    sub_batch_requests [recEmptyId] none =
      Except.ok [mkSubRequest "" (create_prompt recEmptyId)] ∧
    (mkSubRequest "" (create_prompt recEmptyId)).custom_id = "" := by
  constructor
  · rfl
  · rfl

/-- Claim C4 (amended): every emitted envelope's `custom_id` equals its
source record's `id` whenever the id key is present — including when it is
the empty string — and a selected record with an absent id key makes the
whole run raise `KeyError` before the destination is opened: nothing is
skipped and nothing is written. -/
theorem C4_assembler_amended (data : List Record) (gf : Option String) :
    (∀ reqs, sub_batch_requests data gf = Except.ok reqs →
      reqs = (sub_selected data gf).map
        (fun p => mkSubRequest (p.2.id.getD "") (create_prompt p.2)) ∧
      ∀ p ∈ sub_selected data gf, p.2.id.isSome) ∧
    ((∃ p ∈ sub_selected data gf, p.2.id = none) →
      sub_batch_requests data gf = Except.error BuildError.keyErrorId ∧
      (sub_create_batch_file (Source.ok data) gf).2 = []) := by
  constructor
  · intro reqs h
    have hids := sub_build_ids _ _ h
    constructor
    · unfold sub_batch_requests at h
      rw [sub_build_ok _ hids] at h
      exact (Except.ok.inj h).symm
    · intro p hp
      exact hids p (List.mem_filter.1 hp).1 (List.mem_filter.1 hp).2
  · intro hex
    obtain ⟨p, hp, hnone⟩ := hex
    have herr : sub_batch_requests data gf = Except.error BuildError.keyErrorId := by
      unfold sub_batch_requests
      exact sub_build_err _ ⟨p, (List.mem_filter.1 hp).1,
        (List.mem_filter.1 hp).2, hnone⟩
    exact ⟨herr, by simp [sub_create_batch_file, load_dataset, herr]⟩

/-- Witness for C4 (amended): a selected record with an absent id aborts the
run. -/
theorem C4_assembler_amended_witness :
    sub_batch_requests [(⟨none, none, none, none, none, none, some ["x"]⟩ : Record)] none =
      Except.error BuildError.keyErrorId := by
  have h := (C4_assembler_amended
    [(⟨none, none, none, none, none, none, some ["x"]⟩ : Record)] none).2
  exact (h ⟨(0, ⟨none, none, none, none, none, none, some ["x"]⟩), by decide, rfl⟩).1

/-- Claim C5: the writer emits exactly one JSON line per envelope, in input
order, with nothing after the final line beyond its own terminator; the
artifact's newline count equals the number of assembled envelopes; the run
returns that count; and JSON string content consisting of characters that
are not quotes, backslashes or control characters (all of Arabic script)
passes through without numeric escapes. -/
theorem C5_writer (data : List Record) (gf : Option String)
    (reqs : List BatchRequest) (hok : sub_batch_requests data gf = Except.ok reqs) :
    (write_jsonl reqs).data.count '\n' = reqs.length ∧
    (sub_create_batch_file (Source.ok data) gf).1 = Except.ok reqs.length ∧
    (sub_create_batch_file (Source.ok data) gf).2 =
      Event.openedOutput :: reqs.map (fun r => Event.wrote (json_encode r ++ "\n")) ∧
    (∀ r rest, write_jsonl (r :: rest) = json_encode r ++ "\n" ++ write_jsonl rest) ∧
    (∀ s : String, (∀ c ∈ s.data, 32 ≤ c.toNat ∧ c ≠ '"' ∧ c ≠ '\\') →
      jsonStr s = "\"" ++ s ++ "\"") := by
  have hshape := sub_build_fixed _ _ hok
  have hnl : ∀ r ∈ reqs, '\n' ∉ (json_encode r).data := by
    intro r hr
    obtain ⟨cid, prompt, hmk⟩ := hshape r hr
    rw [hmk]
    refine json_encode_no_nl (mkSubRequest cid prompt) ?_ ?_
    · show Char.ofNat 10 ∉ ("0.1" : String).data
      decide
    · show Char.ofNat 10 ∉ (toString (300 : Nat)).data
      decide
  refine ⟨write_jsonl_count reqs hnl, ?_, ?_, fun r rest => rfl, jsonStr_id⟩
  · simp [sub_create_batch_file, load_dataset, hok]
  · simp [sub_create_batch_file, load_dataset, hok]

/-- Witness for C5 at a one-record store. -/
theorem C5_writer_witness :
    (sub_create_batch_file (Source.ok [recGroupA]) none).1 = Except.ok 1 := by
  have h := C5_writer [recGroupA] none [mkSubRequest "a|1" (create_prompt recGroupA)] rfl
  exact h.2.1

/-- Claim C6 counterexample: two previous neighbors that agree on `arabic`
and on `translation1` (both keys absent in both) nevertheless produce
different prompts, because a neighbor with only an `id` key is truthy and
gets the per-field placeholders while a neighbor with no keys at all is
falsy (`if not verse`) and gets the whole-block placeholder — so the prompt
does not depend on the neighbor only through `arabic` and the first
translation. -/
theorem C6_tags_renderer_counterexample :
    recIdOnly.arabic = emptyRecord.arabic ∧
    recIdOnly.translation1 = emptyRecord.translation1 ∧
    create_tags_prompt (some recIdOnly) emptyRecord none ≠
      create_tags_prompt (some emptyRecord) emptyRecord none := by
  refine ⟨rfl, rfl, ?_⟩
  intro h
  have hl := congrArg String.length h
  simp [create_tags_prompt, String.length_append, prev_text_of, optRecordTruthy,
    Record.truthy, recIdOnly, emptyRecord, format_context_verse] at hl
  exact absurd hl (by decide)

/-- Claim C6 (amended): the tagging prompt embeds, for each neighbor, only
its `arabic` field, its first translation field and whether it has any field
at all: an absent neighbor or a neighbor with no fields yields one fixed
whole-block placeholder, and otherwise the two fields are each independently
placeholder-substituted when absent.  For the target it embeds `arabic`, the
first three translations (each independently placeholder-substituted when
absent, never the `id`), and comma-joined `topic` and `subtopic` renderings
with a fixed placeholder when the list is empty or absent. -/
theorem C6_tags_renderer_amended (p q n : Option Record) (t : Record) :
    (optRecordTruthy p = optRecordTruthy q →
      (p.getD emptyRecord).arabic = (q.getD emptyRecord).arabic →
      (p.getD emptyRecord).translation1 = (q.getD emptyRecord).translation1 →
      create_tags_prompt p t n = create_tags_prompt q t n ∧
      create_tags_prompt n t p = create_tags_prompt n t q) ∧
    (create_tags_prompt none t n = create_tags_prompt (some emptyRecord) t n) ∧
    (prev_text_of none = "No previous verse available") ∧
    (∀ v : Record, v.truthy = true →
      prev_text_of (some v) =
        "Arabic: " ++ v.arabic.getD ("No Arabic text available") ++
          "\nTranslation: " ++ v.translation1.getD ("No translation available")) ∧
    (next_text_of none = "No next verse available") ∧
    (∀ c : Option String,
      create_tags_prompt p { t with id := c } n = create_tags_prompt p t n) ∧
    (create_tags_prompt p emptyRecord n =
      tagsTpl0 ++ prev_text_of p ++ tagsTpl1 ++ next_text_of n ++ tagsTpl2 ++
        "No Arabic text available" ++ tagsTpl3 ++ "No translation1 available" ++
        tagsTpl4 ++ "No translation2 available" ++ tagsTpl5 ++
        "No translation3 available" ++ tagsTpl6 ++ "No topics provided" ++
        tagsTpl7 ++ "No subtopics provided" ++ tagsTpl8) ∧
    (∀ l : List String, l ≠ [] →
      topics_str { t with topic := some l } = String.intercalate (", ") l ∧
      subtopics_str { t with subtopic := some l } = String.intercalate (", ") l) ∧
    (topics_str { t with topic := some [] } = "No topics provided" ∧
      subtopics_str { t with subtopic := some [] } = "No subtopics provided") := by
  refine ⟨?_, ?_, rfl, ?_, rfl, fun c => rfl, ?_, ?_, ?_⟩
  · intro hT hA h1
    have hprev : prev_text_of p = prev_text_of q := by
      simp only [prev_text_of, format_context_verse, hT, hA, h1]
    have hnext : next_text_of p = next_text_of q := by
      simp only [next_text_of, format_context_verse, hT, hA, h1]
    constructor
    · simp only [create_tags_prompt, hprev]
    · simp only [create_tags_prompt, hnext]
  · rfl
  · intro v hv
    simp [prev_text_of, format_context_verse, optRecordTruthy, hv]
  · rfl
  · intro l hl
    have hne : l.isEmpty = false := by
      cases l with
      | nil => exact absurd rfl hl
      | cons x xs => rfl
    constructor
    · simp [topics_str, hne]
    · simp [subtopics_str, hne]
  · constructor
    · rfl
    · rfl

/-- Witness for C6 (amended): two truthy neighbors agreeing on `arabic` and
`translation1` yield identical prompts even though their other fields
differ. -/
theorem C6_tags_renderer_amended_witness :
    create_tags_prompt (some recGroupA) emptyRecord none =
      create_tags_prompt
        (some (⟨some "zzz", none, none, none, none, none, some ["y"]⟩ : Record))
        emptyRecord none := by
  have h := (C6_tags_renderer_amended (some recGroupA)
    (some (⟨some "zzz", none, none, none, none, none, some ["y"]⟩ : Record))
    none emptyRecord).1
  exact (h (by decide) (by decide) (by decide)).1

/-- Claim C7: loading fails with the corresponding exception when the source
is missing, unreadable or malformed; the load is all-or-nothing (it returns
the full record sequence exactly when the source holds one); and on any run
failure — load failure included — the destination is never opened or
written. -/
theorem C7_loader (src : Source) (gf : Option String) :
    (∀ e, load_dataset src = Except.error e →
      sub_create_batch_file src gf = (Except.error (RunError.load e), [])) ∧
    (∀ data, load_dataset src = Except.ok data ↔ src = Source.ok data) ∧
    (load_dataset Source.missing = Except.error LoadError.fileNotFound) ∧
    (load_dataset Source.unreadable = Except.error LoadError.ioError) ∧
    (load_dataset Source.malformed = Except.error LoadError.jsonDecodeError) ∧
    (∀ e, (sub_create_batch_file src gf).1 = Except.error e →
      (sub_create_batch_file src gf).2 = []) := by
  refine ⟨?_, ?_, rfl, rfl, rfl, ?_⟩
  · intro e he
    cases src with
    | missing => rw [show e = LoadError.fileNotFound from (Except.error.inj he).symm]; rfl
    | unreadable => rw [show e = LoadError.ioError from (Except.error.inj he).symm]; rfl
    | malformed => rw [show e = LoadError.jsonDecodeError from (Except.error.inj he).symm]; rfl
    | ok data => cases he
  · intro data
    cases src <;> simp [load_dataset]
  · intro e he
    cases src with
    | missing => rfl
    | unreadable => rfl
    | malformed => rfl
    | ok data =>
      cases hb : sub_batch_requests data gf with
      | error eb => simp [sub_create_batch_file, load_dataset, hb]
      | ok reqs =>
        exfalso
        simp [sub_create_batch_file, load_dataset, hb] at he

/-- Witness for C7 at a missing source. -/
theorem C7_loader_witness :
    sub_create_batch_file Source.missing none =
      (Except.error (RunError.load LoadError.fileNotFound), []) :=
  (C7_loader Source.missing none).1 LoadError.fileNotFound rfl

/-- Claim C8: both renderers are pure functions of their declared inputs:
repeated invocations on the same input return the same string; the
refinement prompt is determined by the record's `arabic`,
`translation1..3` and `subtopic` fields alone; and a record with every
translation field absent still renders — the translations block becomes
empty and the remaining fields fall back to their defined placeholders. -/
theorem C8_renderer_purity (r : Record) (p n : Option Record) (t : Record) :
    create_prompt r = create_prompt r ∧
    create_tags_prompt p t n = create_tags_prompt p t n ∧
    (∀ r2 : Record, r.arabic = r2.arabic → r.translation1 = r2.translation1 →
      r.translation2 = r2.translation2 → r.translation3 = r2.translation3 →
      r.subtopic = r2.subtopic → create_prompt r = create_prompt r2) ∧
    (r.translation1 = none → r.translation2 = none → r.translation3 = none →
      sub_translations r = [] ∧ translations_text r = "" ∧
      create_prompt r = subTpl0 ++ arabic_text r ++ subTpl1 ++ "" ++ subTpl2 ++
        subtopics_str r ++ subTpl3) ∧
    (arabic_text emptyRecord = "No Arabic text provided" ∧
      subtopics_str emptyRecord = "No subtopics provided" ∧
      create_tags_prompt p emptyRecord n =
        tagsTpl0 ++ prev_text_of p ++ tagsTpl1 ++ next_text_of n ++ tagsTpl2 ++
          "No Arabic text available" ++ tagsTpl3 ++ "No translation1 available" ++
          tagsTpl4 ++ "No translation2 available" ++ tagsTpl5 ++
          "No translation3 available" ++ tagsTpl6 ++ "No topics provided" ++
          tagsTpl7 ++ "No subtopics provided" ++ tagsTpl8) := by
  refine ⟨rfl, rfl, ?_, ?_, rfl, rfl, rfl⟩
  · intro r2 hA h1 h2 h3 hS
    have ha : arabic_text r = arabic_text r2 := by
      simp only [arabic_text, hA]
    have ht : translations_text r = translations_text r2 := by
      simp only [translations_text, sub_translations, h1, h2, h3]
    have hs : subtopics_str r = subtopics_str r2 := by
      simp only [subtopics_str, hS]
    simp only [create_prompt, ha, ht, hs]
  · intro h1 h2 h3
    have hst : sub_translations r = [] := by
      simp [sub_translations, h1, h2, h3, truthyStr]
    have htt : translations_text r = "" := by
      unfold translations_text
      rw [hst]
      rfl
    exact ⟨hst, htt, by rw [create_prompt, htt]⟩

/-- Witness for C8: the dependence and all-absent clauses at concrete
records. -/
theorem C8_renderer_purity_witness :
    create_prompt recIdOnly = create_prompt emptyRecord ∧
    translations_text emptyRecord = "" := by
  have h := C8_renderer_purity recIdOnly none none emptyRecord
  refine ⟨h.2.2.1 emptyRecord rfl rfl rfl rfl rfl, ?_⟩
  exact ((C8_renderer_purity emptyRecord none none emptyRecord).2.2.2.1
    rfl rfl rfl).2.1

/-- Claim C9: within one run every emitted envelope carries the same fixed
method, url, model, max_tokens, temperature and system message; only the
custom id and the user prompt vary. -/
theorem C9_envelope_uniformity (data : List Record) (gf : Option String)
    (reqs : List BatchRequest) (r : BatchRequest) :
    (sub_batch_requests data gf = Except.ok reqs → r ∈ reqs →
      r.method = "POST" ∧ r.url = "/v1/chat/completions" ∧
      r.model = "gpt-4.1-2025-04-14" ∧ r.max_tokens = 300 ∧
      r.temperature = "0.1" ∧
      r.system_content =
        "You are an expert Islamic scholar. Always respond with valid JSON only.") ∧
    (tags_batch_requests data gf = Except.ok reqs → r ∈ reqs →
      r.method = "POST" ∧ r.url = "/v1/chat/completions" ∧
      r.model = "gpt-4.1-2025-04-14" ∧ r.max_tokens = 150 ∧
      r.temperature = "0.1" ∧
      r.system_content =
        "You are an expert Islamic scholar specializing in Quranic interpretation. Always respond with valid JSON only.") := by
  constructor
  · intro h hr
    obtain ⟨cid, prompt, hmk⟩ := sub_build_fixed _ _ h r hr
    rw [hmk]
    exact ⟨rfl, rfl, rfl, rfl, rfl, rfl⟩
  · intro h hr
    obtain ⟨cid, prompt, hmk⟩ := tags_build_fixed data _ _ h r hr
    rw [hmk]
    exact ⟨rfl, rfl, rfl, rfl, rfl, rfl⟩

/-- Witness for C9 at a one-record refinement run. -/
theorem C9_envelope_uniformity_witness :
    (mkSubRequest "a|1" (create_prompt recGroupA)).max_tokens = 300 ∧
    (mkSubRequest "a|1" (create_prompt recGroupA)).temperature = "0.1" := by
  have h := (C9_envelope_uniformity [recGroupA] none
    [mkSubRequest "a|1" (create_prompt recGroupA)]
    (mkSubRequest "a|1" (create_prompt recGroupA))).1 rfl
    (List.mem_singleton.2 rfl)
  exact ⟨h.2.2.2.1, h.2.2.2.2.1⟩

/-- Claim C10: in the refinement renderer a translation field that is present
but empty is treated exactly like an absent field — omitted, with the
remaining nonempty translations renumbered from 1 — and a present-but-empty
`subtopic` list renders the placeholder exactly like an absent one. -/
theorem C10_falsy_fields (r : Record) :
    (create_prompt { r with translation1 := some "" } =
      create_prompt { r with translation1 := none }) ∧
    (create_prompt { r with translation2 := some "" } =
      create_prompt { r with translation2 := none }) ∧
    (create_prompt { r with translation3 := some "" } =
      create_prompt { r with translation3 := none }) ∧
    (create_prompt { r with subtopic := some [] } =
      create_prompt { r with subtopic := none }) ∧
    (∀ b : String, b ≠ "" →
      sub_translations { r with translation1 := some "", translation2 := some b, translation3 := none } = [b] ∧
      translations_text { r with translation1 := some "", translation2 := some b, translation3 := none } = "Translation 1: \"" ++ b ++ "\"") := by
  refine ⟨rfl, rfl, rfl, rfl, ?_⟩
  intro b hb
  have htb : truthyStr (some b) = true := by simp [truthyStr, hb]
  have hst : sub_translations { r with translation1 := some "", translation2 := some b, translation3 := none } = [b] := by
    simp [sub_translations, truthyStr, htb, hb]
  refine ⟨hst, ?_⟩
  have hnum1 : (toString 1 : String) = "1" := rfl
  unfold translations_text
  rw [hst]
  simp [List.enumFrom, hnum1]
  rfl

/-- Witness for C10 at a concrete record with an empty first translation. -/
theorem C10_falsy_fields_witness :
    translations_text (⟨none, none, some "", some "b", none, none, none⟩ : Record) =
      "Translation 1: \"b\"" := by
  have h := ((C10_falsy_fields emptyRecord).2.2.2.2 "b" (by decide)).2
  simpa using h
